import Mathlib

/-!
Verification of the tilt-timer firmware (src/Tilt-Timer_code.c).

The core control logic is shallowly embedded: each C function that touches
the timer state becomes a Lean function on an explicit record of the C file's
global variables, with the two hardware outputs (LED level, current tone
frequency) carried as extra fields.  `millis()` timestamps are natural
numbers already reduced modulo 2^32 (the width of `unsigned long` on the
target), and every elapsed-time check uses the same modular difference the C
code computes with unsigned subtraction.  Acceleration samples are rationals,
standing in for the exact float comparisons of `detectFace`.
-/

namespace TiltTimer

/-- C enum `State`. -/
inductive State where
  | STATE_MENU
  | STATE_COUNTDOWN
  | STATE_ALARM
  deriving DecidableEq

/-- C enum `Face`. -/
inductive Face where
  | FACE_NONE
  | FACE_NEG_Y
  | FACE_POS_X
  | FACE_POS_Y
  | FACE_NEG_X
  deriving DecidableEq

/-- `#define AXIS_G_MIN 9.0f`. -/
def AXIS_G_MIN : ℚ := 9
/-- `#define AXIS_G_MAX 11.5f`. -/
def AXIS_G_MAX : ℚ := 23 / 2

/-- `#define COUNT_NEG_Y_SEC 5`. -/
def COUNT_NEG_Y_SEC : Int := 5
/-- `#define COUNT_POS_X_SEC 10`. -/
def COUNT_POS_X_SEC : Int := 10
/-- `#define COUNT_POS_Y_SEC 15`. -/
def COUNT_POS_Y_SEC : Int := 15
/-- `#define COUNT_NEG_X_SEC 30`. -/
def COUNT_NEG_X_SEC : Int := 30

/-- `#define ALARM_TOGGLE_MS 1000`. -/
def ALARM_TOGGLE_MS : Nat := 1000
/-- `#define AXIS_CHANGE_BUFFER_MS 500`. -/
def AXIS_CHANGE_BUFFER_MS : Nat := 500

/-- Width of `unsigned long` on the ESP32 target: 2^32. -/
def UL_MOD : Nat := 2 ^ 32

/-- C unsigned 32-bit subtraction `a - b` (as used in every elapsed-time
check of the firmware): the wraparound-safe modular difference. -/
def usub32 (a b : Nat) : Nat := (a + UL_MOD - b % UL_MOD) % UL_MOD

/-- `const int melody[]` (13 notes, Hz). -/
def melody : List Int :=
  [659, 587, 370, 415, 554, 494, 294, 330, 494, 440, 277, 330, 440]

/-- `const int noteDurations[]` (13 note durations, ms). -/
def noteDurations : List Int :=
  [150, 150, 300, 300, 150, 150, 300, 300, 150, 150, 300, 300, 600]

/-- `const int NUM_NOTES = sizeof(melody) / sizeof(melody[0])`. -/
def NUM_NOTES : Int := (melody.length : Int)

/-- The global mutable state of the firmware, plus the two modelled outputs:
`ledOn` is the level last written to `LED_PIN`, and `toneFreq` is the
frequency currently driven on `PIEZO_PIN` (`0` after `noTone` /
`digitalWrite(PIEZO_PIN, LOW)`). -/
structure Sys where
  currentState : State
  activeFace : Face
  countdownTotalSec : Int
  countdownRemainingSec : Int
  countdownAxisLabel : Char
  lastCountdownTick : Nat
  countdownRotation : Nat
  lastAlarmToggleMs : Nat
  alarmOutputState : Bool
  axisChangePending : Bool
  axisChangeStartMs : Nat
  currentNoteIndex : Int
  noteStartMs : Nat
  ledOn : Bool
  toneFreq : Int
  deriving DecidableEq

/-- C `fabsf`. -/
def fabsf (v : ℚ) : ℚ := if v < 0 then -v else v

/-- `Face detectFace(float x, float y, float z)`, verbatim from the source:
dominant-axis conditions tried in the order Y, X, Z, each conjoined with the
gravity band. -/
def detectFace (x y z : ℚ) : Face :=
  let ax := fabsf x
  let ay := fabsf y
  let az := fabsf z
  if ay ≥ ax ∧ ay ≥ az ∧ ay ≥ AXIS_G_MIN ∧ ay ≤ AXIS_G_MAX then
    if y > 0 then Face.FACE_POS_Y else Face.FACE_NEG_Y
  else if ax ≥ ay ∧ ax ≥ az ∧ ax ≥ AXIS_G_MIN ∧ ax ≤ AXIS_G_MAX then
    if x > 0 then Face.FACE_POS_X else Face.FACE_NEG_X
  else if az ≥ AXIS_G_MIN ∧ az ≤ AXIS_G_MAX then
    Face.FACE_NONE
  else
    Face.FACE_NONE

/-- `void goToMenu()`: reset to the menu state and deassert both outputs.
Note the C function does not touch the countdown session fields. -/
def goToMenu (s : Sys) : Sys :=
  { s with
    currentState := State.STATE_MENU
    activeFace := Face.FACE_NONE
    axisChangePending := false
    ledOn := false
    toneFreq := 0 }

/-- `void startCountdown(int seconds, char axisLabel, uint8_t rotationIndex,
Face face)`; `now` stands for the `millis()` call inside it. -/
def startCountdown (s : Sys) (seconds : Int) (axisLabel : Char)
    (rotationIndex : Nat) (face : Face) (now : Nat) : Sys :=
  { s with
    countdownTotalSec := seconds
    countdownRemainingSec := seconds
    countdownAxisLabel := axisLabel
    countdownRotation := rotationIndex
    lastCountdownTick := now
    currentState := State.STATE_COUNTDOWN
    activeFace := face
    axisChangePending := false }

/-- `void startAlarm()`: enter the alarm state, reset both sub-clocks, and
emit the first melody note (if it is not a rest). -/
def startAlarm (s : Sys) (now : Nat) : Sys :=
  let s1 : Sys :=
    { s with
      currentState := State.STATE_ALARM
      lastAlarmToggleMs := now
      alarmOutputState := false
      currentNoteIndex := 0
      noteStartMs := now
      ledOn := false
      toneFreq := 0 }
  let f := melody.getD s1.currentNoteIndex.toNat 0
  if f > 0 then { s1 with toneFreq := f } else { s1 with toneFreq := 0 }

/-- `void updateCountdown()`: each time ≥ 1000 ms have elapsed since the last
recorded tick, re-anchor and either decrement (if positive) or start the
alarm (if already zero). -/
def updateCountdown (s : Sys) (now : Nat) : Sys :=
  if s.currentState ≠ State.STATE_COUNTDOWN then s
  else if usub32 now s.lastCountdownTick ≥ 1000 then
    let s1 := { s with lastCountdownTick := now }
    if s1.countdownRemainingSec > 0 then
      { s1 with countdownRemainingSec := s1.countdownRemainingSec - 1 }
    else
      startAlarm s1 now
  else s

/-- `void updateAlarm()`: the 1000 ms blink sub-clock, then the melody
sub-clock that advances the cyclic note index when the current note's
duration has elapsed. -/
def updateAlarm (s : Sys) (now : Nat) : Sys :=
  if s.currentState ≠ State.STATE_ALARM then s
  else
    let s1 :=
      if usub32 now s.lastAlarmToggleMs ≥ ALARM_TOGGLE_MS then
        { s with
          lastAlarmToggleMs := now
          alarmOutputState := !s.alarmOutputState
          ledOn := !s.alarmOutputState }
      else s
    if usub32 now s1.noteStartMs ≥ (noteDurations.getD s1.currentNoteIndex.toNat 0).toNat then
      let idx := if s1.currentNoteIndex + 1 ≥ NUM_NOTES then 0 else s1.currentNoteIndex + 1
      let freq := melody.getD idx.toNat 0
      { s1 with
        currentNoteIndex := idx
        noteStartMs := now
        toneFreq := if freq > 0 then freq else 0 }
    else s1

/-- The `switch (currentState)` at the end of `loop()`: in the menu the four
trigger faces start their countdowns (note the swapped X constants taken
verbatim from the source), otherwise dispatch to the active mode's update. -/
def stateDispatch (s : Sys) (currentFace : Face) (now : Nat) : Sys :=
  match s.currentState with
  | State.STATE_MENU =>
    if currentFace = Face.FACE_NEG_Y then
      startCountdown s COUNT_NEG_Y_SEC 'Y' 0 Face.FACE_NEG_Y now
    else if currentFace = Face.FACE_POS_X then
      startCountdown s COUNT_NEG_X_SEC 'X' 1 Face.FACE_POS_X now
    else if currentFace = Face.FACE_POS_Y then
      startCountdown s COUNT_POS_Y_SEC 'Y' 2 Face.FACE_POS_Y now
    else if currentFace = Face.FACE_NEG_X then
      startCountdown s COUNT_POS_X_SEC 'X' 3 Face.FACE_NEG_X now
    else s
  | State.STATE_COUNTDOWN => updateCountdown s now
  | State.STATE_ALARM => updateAlarm s now

/-- The body of `void loop()` after the classifier has produced
`currentFace`: the axis-change interrupt tracking (with its early `return`
through `goToMenu`), then the state dispatch. -/
def loopFace (s : Sys) (currentFace : Face) (now : Nat) : Sys :=
  if s.currentState = State.STATE_COUNTDOWN ∨ s.currentState = State.STATE_ALARM then
    if currentFace = s.activeFace ∧ currentFace ≠ Face.FACE_NONE then
      stateDispatch { s with axisChangePending := false } currentFace now
    else if !s.axisChangePending then
      stateDispatch
        { s with axisChangePending := true, axisChangeStartMs := now } currentFace now
    else if usub32 now s.axisChangeStartMs ≥ AXIS_CHANGE_BUFFER_MS then
      goToMenu s
    else
      stateDispatch s currentFace now
  else
    stateDispatch
      { s with axisChangePending := false, activeFace := Face.FACE_NONE } currentFace now

/-- One iteration of `void loop()`: classify the acceleration sample, then
run the loop body on the resulting face. -/
def loopStep (s : Sys) (x y z : ℚ) (now : Nat) : Sys :=
  loopFace s (detectFace x y z) now

/-- The state after `setup()` (which zero-initialises the globals, drives
both output pins low, and ends with `goToMenu()`). -/
def initialSys : Sys :=
  goToMenu
    { currentState := State.STATE_MENU
      activeFace := Face.FACE_NONE
      countdownTotalSec := 0
      countdownRemainingSec := 0
      countdownAxisLabel := '?'
      lastCountdownTick := 0
      countdownRotation := 0
      lastAlarmToggleMs := 0
      alarmOutputState := false
      axisChangePending := false
      axisChangeStartMs := 0
      currentNoteIndex := 0
      noteStartMs := 0
      ledOn := false
      toneFreq := 0 }

/-- Iterate `loopStep` with a fixed acceleration sample, tick `k` arriving at
`millis() = start + 50 * k` (the 50 ms polling cadence of `loop()`). -/
def runTicks (s : Sys) (x y z : ℚ) (start : Nat) : Nat → Sys
  | 0 => s
  | n + 1 => loopStep (runTicks s x y z start n) x y z (start + 50 * n)

/-- `runTicks` with the classifier output precomputed (the sample is fixed,
so every tick classifies to the same face). -/
def runTicksF (s : Sys) (f : Face) (start : Nat) : Nat → Sys
  | 0 => s
  | n + 1 => loopFace (runTicksF s f start n) f (start + 50 * n)

theorem runTicks_eq_runTicksF (s : Sys) (x y z : ℚ) (start n : Nat) :
    runTicks s x y z start n = runTicksF s (detectFace x y z) start n := by
  induction n with
  | zero => rfl
  | succ n ih => simp [runTicks, runTicksF, loopStep, ih]

/-! Concrete classifier evaluations used by the scenario proofs and
witnesses: samples resting cleanly on one face (10 m/s² on one axis). -/

lemma detectFace_sample_negY : detectFace 0 (-10) 0 = Face.FACE_NEG_Y := by
  norm_num [detectFace, fabsf, AXIS_G_MIN, AXIS_G_MAX]

lemma detectFace_sample_posY : detectFace 0 10 0 = Face.FACE_POS_Y := by
  norm_num [detectFace, fabsf, AXIS_G_MIN, AXIS_G_MAX]

lemma detectFace_sample_posX : detectFace 10 0 0 = Face.FACE_POS_X := by
  norm_num [detectFace, fabsf, AXIS_G_MIN, AXIS_G_MAX]

lemma detectFace_sample_negX : detectFace (-10) 0 0 = Face.FACE_NEG_X := by
  norm_num [detectFace, fabsf, AXIS_G_MIN, AXIS_G_MAX]

lemma detectFace_sample_flat : detectFace 0 0 10 = Face.FACE_NONE := by
  norm_num [detectFace, fabsf, AXIS_G_MIN, AXIS_G_MAX]

/-! Shape lemmas for the stateful helpers. -/

/-- `startAlarm` written out: the first melody note is 659 Hz, not a rest,
so the `tone` branch is taken. -/
lemma startAlarm_eq (s : Sys) (now : Nat) :
    startAlarm s now =
      { s with
        currentState := State.STATE_ALARM,
        lastAlarmToggleMs := now,
        alarmOutputState := false,
        currentNoteIndex := 0,
        noteStartMs := now,
        ledOn := false,
        toneFreq := 659 } := by
  norm_num [startAlarm, melody]

lemma updateCountdown_notCountdown (s : Sys) (now : Nat)
    (h : s.currentState ≠ State.STATE_COUNTDOWN) : updateCountdown s now = s := by
  simp [updateCountdown, h]

lemma updateCountdown_noTick (s : Sys) (now : Nat)
    (h : ¬ usub32 now s.lastCountdownTick ≥ 1000) : updateCountdown s now = s := by
  simp only [updateCountdown]
  split_ifs <;> rfl

lemma updateCountdown_decrement (s : Sys) (now : Nat)
    (hs : s.currentState = State.STATE_COUNTDOWN)
    (ht : usub32 now s.lastCountdownTick ≥ 1000)
    (hr : s.countdownRemainingSec > 0) :
    updateCountdown s now =
      { s with
        lastCountdownTick := now,
        countdownRemainingSec := s.countdownRemainingSec - 1 } := by
  simp [updateCountdown, hs, ht, hr]

lemma updateCountdown_expire (s : Sys) (now : Nat)
    (hs : s.currentState = State.STATE_COUNTDOWN)
    (ht : usub32 now s.lastCountdownTick ≥ 1000)
    (hr : ¬ s.countdownRemainingSec > 0) :
    updateCountdown s now = startAlarm { s with lastCountdownTick := now } now := by
  simp [updateCountdown, hs, ht, hr]

lemma updateCountdown_total (s : Sys) (now : Nat) :
    (updateCountdown s now).countdownTotalSec = s.countdownTotalSec := by
  simp only [updateCountdown, startAlarm_eq]
  split_ifs <;> rfl

lemma updateCountdown_activeFace (s : Sys) (now : Nat) :
    (updateCountdown s now).activeFace = s.activeFace := by
  simp only [updateCountdown, startAlarm_eq]
  split_ifs <;> rfl

lemma updateCountdown_pending (s : Sys) (now : Nat) :
    (updateCountdown s now).axisChangePending = s.axisChangePending := by
  simp only [updateCountdown, startAlarm_eq]
  split_ifs <;> rfl

lemma updateCountdown_state (s : Sys) (now : Nat) :
    (updateCountdown s now).currentState = s.currentState ∨
      (updateCountdown s now).currentState = State.STATE_ALARM := by
  simp only [updateCountdown, startAlarm_eq]
  split_ifs <;> simp

lemma updateAlarm_remaining (s : Sys) (now : Nat) :
    (updateAlarm s now).countdownRemainingSec = s.countdownRemainingSec := by
  simp only [updateAlarm]
  split_ifs <;> rfl

lemma updateAlarm_total (s : Sys) (now : Nat) :
    (updateAlarm s now).countdownTotalSec = s.countdownTotalSec := by
  simp only [updateAlarm]
  split_ifs <;> rfl

lemma updateAlarm_state (s : Sys) (now : Nat) :
    (updateAlarm s now).currentState = s.currentState := by
  simp only [updateAlarm]
  split_ifs <;> rfl

lemma updateAlarm_activeFace (s : Sys) (now : Nat) :
    (updateAlarm s now).activeFace = s.activeFace := by
  simp only [updateAlarm]
  split_ifs <;> rfl

lemma updateAlarm_pending (s : Sys) (now : Nat) :
    (updateAlarm s now).axisChangePending = s.axisChangePending := by
  simp only [updateAlarm]
  split_ifs <;> rfl

/-- Dispatching from Countdown or Alarm can only stay in Countdown or move
to Alarm — never back to Menu — and touches neither the debounce flag nor
the active face. -/
lemma stateDispatch_not_menu (s : Sys) (f : Face) (now : Nat)
    (h : s.currentState = State.STATE_COUNTDOWN ∨ s.currentState = State.STATE_ALARM) :
    (stateDispatch s f now).currentState ≠ State.STATE_MENU ∧
    (stateDispatch s f now).axisChangePending = s.axisChangePending ∧
    (stateDispatch s f now).activeFace = s.activeFace ∧
    ((stateDispatch s f now).currentState = State.STATE_COUNTDOWN ∨
      (stateDispatch s f now).currentState = State.STATE_ALARM) := by
  rcases h with h | h
  · rcases updateCountdown_state s now with h' | h' <;>
      simp [stateDispatch, h, updateCountdown_pending, updateCountdown_activeFace, h']
  · simp [stateDispatch, h, updateAlarm_pending, updateAlarm_activeFace,
      updateAlarm_state]

/-- C1: in any Menu-state tick in which the classifier reports one of the
four trigger faces, the machine transitions to Countdown in that same tick,
setting `countdownRemainingSec` and `countdownTotalSec` (once — they equal
the untouched configured constant on exit from the tick) to that face's
configured duration, with the source's swapped X-axis constants: NegY → 5 s,
PosY → 15 s, PosX → 30 s (the `COUNT_NEG_X_SEC` constant), NegX → 10 s (the
`COUNT_POS_X_SEC` constant). -/
theorem menu_trigger_starts_configured_countdown
    (s : Sys) (x y z : ℚ) (now : Nat)
    (hs : s.currentState = State.STATE_MENU) :
    (detectFace x y z = Face.FACE_NEG_Y →
      (loopStep s x y z now).currentState = State.STATE_COUNTDOWN ∧
      (loopStep s x y z now).countdownRemainingSec = COUNT_NEG_Y_SEC ∧
      (loopStep s x y z now).countdownTotalSec = COUNT_NEG_Y_SEC ∧
      COUNT_NEG_Y_SEC = 5) ∧
    (detectFace x y z = Face.FACE_POS_Y →
      (loopStep s x y z now).currentState = State.STATE_COUNTDOWN ∧
      (loopStep s x y z now).countdownRemainingSec = COUNT_POS_Y_SEC ∧
      (loopStep s x y z now).countdownTotalSec = COUNT_POS_Y_SEC ∧
      COUNT_POS_Y_SEC = 15) ∧
    (detectFace x y z = Face.FACE_POS_X →
      (loopStep s x y z now).currentState = State.STATE_COUNTDOWN ∧
      (loopStep s x y z now).countdownRemainingSec = COUNT_NEG_X_SEC ∧
      (loopStep s x y z now).countdownTotalSec = COUNT_NEG_X_SEC ∧
      COUNT_NEG_X_SEC = 30) ∧
    (detectFace x y z = Face.FACE_NEG_X →
      (loopStep s x y z now).currentState = State.STATE_COUNTDOWN ∧
      (loopStep s x y z now).countdownRemainingSec = COUNT_POS_X_SEC ∧
      (loopStep s x y z now).countdownTotalSec = COUNT_POS_X_SEC ∧
      COUNT_POS_X_SEC = 10) := by
  refine ⟨fun hf => ?_, fun hf => ?_, fun hf => ?_, fun hf => ?_⟩ <;>
    simp [loopStep, loopFace, stateDispatch, startCountdown, hs, hf,
      COUNT_NEG_Y_SEC, COUNT_POS_X_SEC, COUNT_POS_Y_SEC, COUNT_NEG_X_SEC]

/-- C1 witness: from the freshly initialised menu, a clean −Y sample starts
the 5-second countdown in one tick. -/
theorem menu_trigger_starts_configured_countdown_witness :
    (loopStep initialSys 0 (-10) 0 0).currentState = State.STATE_COUNTDOWN ∧
    (loopStep initialSys 0 (-10) 0 0).countdownRemainingSec = COUNT_NEG_Y_SEC ∧
    (loopStep initialSys 0 (-10) 0 0).countdownTotalSec = COUNT_NEG_Y_SEC ∧
    COUNT_NEG_Y_SEC = 5 :=
  (menu_trigger_starts_configured_countdown initialSys 0 (-10) 0 0 rfl).1
    detectFace_sample_negY

set_option maxRecDepth 400000 in
/-- C4: the full scenario, executed: starting from the initial menu state
with a −Y sample held and ticks every 50 ms (tick k at t = 50k ms), the
machine is in Countdown with totalSeconds = 5 after one tick (within the
claimed two); `countdownRemainingSec` reaches 0 at t = 5000 ms while still
in Countdown; the tick at t = 6000 ms hands off to Alarm with remaining
exactly 0 and first tone 659 Hz; the indicator is driven low at alarm entry
(alarm-relative t = 0) and toggles at alarm-relative t = 1000 ms and
t = 2000 ms (absolute t = 7000, 8000 ms). -/
theorem scenario_negY_five_seconds :
    (runTicks initialSys 0 (-10) 0 0 1).currentState = State.STATE_COUNTDOWN ∧
    (runTicks initialSys 0 (-10) 0 0 1).countdownTotalSec = 5 ∧
    (runTicks initialSys 0 (-10) 0 0 1).countdownRemainingSec = 5 ∧
    (runTicks initialSys 0 (-10) 0 0 101).countdownRemainingSec = 0 ∧
    (runTicks initialSys 0 (-10) 0 0 101).currentState = State.STATE_COUNTDOWN ∧
    (runTicks initialSys 0 (-10) 0 0 120).currentState = State.STATE_COUNTDOWN ∧
    (runTicks initialSys 0 (-10) 0 0 121).currentState = State.STATE_ALARM ∧
    (runTicks initialSys 0 (-10) 0 0 121).countdownRemainingSec = 0 ∧
    (runTicks initialSys 0 (-10) 0 0 121).toneFreq = 659 ∧
    (runTicks initialSys 0 (-10) 0 0 121).ledOn = false ∧
    (runTicks initialSys 0 (-10) 0 0 141).ledOn = true ∧
    (runTicks initialSys 0 (-10) 0 0 161).ledOn = false := by
  simp only [runTicks_eq_runTicksF, detectFace_sample_negY]
  decide

/-- Every branch of the loop body is either the `goToMenu` early return or
the state dispatch on a state agreeing with `s` on the session fields. -/
lemma loopFace_shape (s : Sys) (f : Face) (now : Nat) :
    loopFace s f now = goToMenu s ∨
    ∃ s', loopFace s f now = stateDispatch s' f now ∧
          s'.countdownRemainingSec = s.countdownRemainingSec ∧
          s'.countdownTotalSec = s.countdownTotalSec ∧
          s'.currentState = s.currentState := by
  unfold loopFace
  split_ifs <;>
    first
      | exact Or.inl rfl
      | exact Or.inr ⟨_, rfl, rfl, rfl, rfl⟩

/-- What one `updateCountdown` call does to the remaining seconds. -/
lemma updateCountdown_remaining_spec (s : Sys) (now : Nat)
    (h0 : 0 ≤ s.countdownRemainingSec) :
    0 ≤ (updateCountdown s now).countdownRemainingSec ∧
    (updateCountdown s now).countdownRemainingSec ≤ s.countdownRemainingSec ∧
    ((updateCountdown s now).countdownRemainingSec = s.countdownRemainingSec ∨
      (updateCountdown s now).countdownRemainingSec = s.countdownRemainingSec - 1) ∧
    ((updateCountdown s now).currentState = State.STATE_ALARM →
      s.currentState = State.STATE_ALARM ∨
        (s.countdownRemainingSec = 0 ∧
          (updateCountdown s now).countdownRemainingSec = 0)) := by
  simp only [updateCountdown, startAlarm_eq]
  split_ifs <;> simp_all <;> omega

/-- The dispatch-level form of the countdown-session invariant. -/
lemma stateDispatch_remaining_spec (s : Sys) (f : Face) (now : Nat)
    (h0 : 0 ≤ s.countdownRemainingSec)
    (h1 : s.countdownRemainingSec ≤ s.countdownTotalSec) :
    (0 ≤ (stateDispatch s f now).countdownRemainingSec ∧
      (stateDispatch s f now).countdownRemainingSec ≤
        (stateDispatch s f now).countdownTotalSec) ∧
    (s.currentState = State.STATE_COUNTDOWN →
      ((stateDispatch s f now).countdownRemainingSec ≤ s.countdownRemainingSec ∧
        ((stateDispatch s f now).countdownRemainingSec = s.countdownRemainingSec ∨
          (stateDispatch s f now).countdownRemainingSec = s.countdownRemainingSec - 1) ∧
        ((stateDispatch s f now).currentState = State.STATE_ALARM →
          s.countdownRemainingSec = 0 ∧
          (stateDispatch s f now).countdownRemainingSec = 0))) := by
  cases hst : s.currentState
  · constructor
    · simp only [stateDispatch, hst]
      split_ifs <;>
        simp [startCountdown, COUNT_NEG_Y_SEC, COUNT_POS_X_SEC, COUNT_POS_Y_SEC,
          COUNT_NEG_X_SEC, h0, h1]
    · intro hc
      exact absurd hc (by simp)
  · have hud := updateCountdown_remaining_spec s now h0
    have hds : stateDispatch s f now = updateCountdown s now := by
      simp [stateDispatch, hst]
    rw [hds]
    refine ⟨⟨hud.1, ?_⟩, fun _ => ⟨hud.2.1, hud.2.2.1, fun ha => ?_⟩⟩
    · calc (updateCountdown s now).countdownRemainingSec
          ≤ s.countdownRemainingSec := hud.2.1
        _ ≤ s.countdownTotalSec := h1
        _ = (updateCountdown s now).countdownTotalSec :=
            (updateCountdown_total s now).symm
    · rcases hud.2.2.2 ha with hl | hr
      · rw [hst] at hl
        exact absurd hl (by simp)
      · exact hr
  · have hds : stateDispatch s f now = updateAlarm s now := by
      simp [stateDispatch, hst]
    rw [hds]
    constructor
    · rw [updateAlarm_remaining, updateAlarm_total]
      exact ⟨h0, h1⟩
    · intro hc
      exact absurd hc (by simp)

/-- C2: one tick preserves `0 ≤ countdownRemainingSec ≤ countdownTotalSec`,
and while in Countdown the remaining seconds never increase, change by at
most one (no value skipped), and the tick that enters Alarm finds — and
leaves — the remaining seconds exactly 0. -/
theorem countdown_session_invariant
    (s : Sys) (x y z : ℚ) (now : Nat)
    (h0 : 0 ≤ s.countdownRemainingSec)
    (h1 : s.countdownRemainingSec ≤ s.countdownTotalSec) :
    (0 ≤ (loopStep s x y z now).countdownRemainingSec ∧
      (loopStep s x y z now).countdownRemainingSec ≤
        (loopStep s x y z now).countdownTotalSec) ∧
    (s.currentState = State.STATE_COUNTDOWN →
      ((loopStep s x y z now).countdownRemainingSec ≤ s.countdownRemainingSec ∧
        ((loopStep s x y z now).countdownRemainingSec = s.countdownRemainingSec ∨
          (loopStep s x y z now).countdownRemainingSec = s.countdownRemainingSec - 1) ∧
        ((loopStep s x y z now).currentState = State.STATE_ALARM →
          s.countdownRemainingSec = 0 ∧
          (loopStep s x y z now).countdownRemainingSec = 0))) := by
  have hls : loopStep s x y z now = loopFace s (detectFace x y z) now := rfl
  rcases loopFace_shape s (detectFace x y z) now with h | ⟨s', h, hr, ht, hs⟩
  · rw [hls, h]
    refine ⟨⟨h0, h1⟩, fun _ => ⟨le_refl _, Or.inl rfl, fun ha => ?_⟩⟩
    exact absurd ha (by simp [goToMenu])
  · have hsp := stateDispatch_remaining_spec s' (detectFace x y z) now
      (hr ▸ h0) (by rw [hr, ht]; exact h1)
    rw [hls, h]
    rw [hr] at hsp
    exact ⟨hsp.1, fun hc => hsp.2 (hs.trans hc)⟩

/-- C2 witness: a mid-session Countdown state one second past its anchor
decrements from 2 to 1, staying within [0, 5]. -/
theorem countdown_session_invariant_witness :
    (0 ≤ (loopStep
        { currentState := State.STATE_COUNTDOWN, activeFace := Face.FACE_NEG_Y,
          countdownTotalSec := 5, countdownRemainingSec := 2, countdownAxisLabel := 'Y',
          lastCountdownTick := 0, countdownRotation := 0, lastAlarmToggleMs := 0,
          alarmOutputState := false, axisChangePending := false, axisChangeStartMs := 0,
          currentNoteIndex := 0, noteStartMs := 0, ledOn := false, toneFreq := 0 }
        0 (-10) 0 1000).countdownRemainingSec ∧
      (loopStep
        { currentState := State.STATE_COUNTDOWN, activeFace := Face.FACE_NEG_Y,
          countdownTotalSec := 5, countdownRemainingSec := 2, countdownAxisLabel := 'Y',
          lastCountdownTick := 0, countdownRotation := 0, lastAlarmToggleMs := 0,
          alarmOutputState := false, axisChangePending := false, axisChangeStartMs := 0,
          currentNoteIndex := 0, noteStartMs := 0, ledOn := false, toneFreq := 0 }
        0 (-10) 0 1000).countdownRemainingSec ≤
        (loopStep
        { currentState := State.STATE_COUNTDOWN, activeFace := Face.FACE_NEG_Y,
          countdownTotalSec := 5, countdownRemainingSec := 2, countdownAxisLabel := 'Y',
          lastCountdownTick := 0, countdownRotation := 0, lastAlarmToggleMs := 0,
          alarmOutputState := false, axisChangePending := false, axisChangeStartMs := 0,
          currentNoteIndex := 0, noteStartMs := 0, ledOn := false, toneFreq := 0 }
        0 (-10) 0 1000).countdownTotalSec) ∧
    (loopStep
        { currentState := State.STATE_COUNTDOWN, activeFace := Face.FACE_NEG_Y,
          countdownTotalSec := 5, countdownRemainingSec := 2, countdownAxisLabel := 'Y',
          lastCountdownTick := 0, countdownRotation := 0, lastAlarmToggleMs := 0,
          alarmOutputState := false, axisChangePending := false, axisChangeStartMs := 0,
          currentNoteIndex := 0, noteStartMs := 0, ledOn := false, toneFreq := 0 }
        0 (-10) 0 1000).countdownRemainingSec ≤ 2 :=
  ⟨(countdown_session_invariant _ 0 (-10) 0 1000 (by decide) (by decide)).1,
    ((countdown_session_invariant _ 0 (-10) 0 1000 (by decide) (by decide)).2 rfl).1⟩

/-- The Countdown state used to exhibit C3's missed reset: 3 s remain, a
reorientation has been pending since t = 100 ms. -/
def interruptedSys : Sys :=
  { currentState := State.STATE_COUNTDOWN, activeFace := Face.FACE_NEG_Y,
    countdownTotalSec := 5, countdownRemainingSec := 3, countdownAxisLabel := 'Y',
    lastCountdownTick := 550, countdownRotation := 0, lastAlarmToggleMs := 0,
    alarmOutputState := false, axisChangePending := true, axisChangeStartMs := 100,
    currentNoteIndex := 0, noteStartMs := 0, ledOn := false, toneFreq := 0 }

/-- C3 counterexample: a debounce-confirmed reorientation (flat face held
since t = 100, confirmed at t = 600) does transition to Menu, but
`countdownRemainingSec` is not cleared: it is still 3. -/
theorem reorientation_remaining_not_cleared_cex :
    (loopStep interruptedSys 0 0 10 600).currentState = State.STATE_MENU ∧
    (loopStep interruptedSys 0 0 10 600).countdownRemainingSec ≠ 0 := by
  simp only [loopStep, detectFace_sample_flat]
  decide

/-- C3 (amended): in Countdown or Alarm, once the observed face has differed
from the active face with the debounce window open for ≥ 500 ms, the tick
runs `goToMenu`: the state becomes Menu and both outputs are silenced (tone
0, LED off) — but `countdownRemainingSec` is left unchanged, not cleared
(the session values are only overwritten by the next `startCountdown`). -/
theorem reorientation_debounced_returns_to_menu
    (s : Sys) (x y z : ℚ) (now : Nat)
    (hst : s.currentState = State.STATE_COUNTDOWN ∨ s.currentState = State.STATE_ALARM)
    (hface : ¬(detectFace x y z = s.activeFace ∧ detectFace x y z ≠ Face.FACE_NONE))
    (hp : s.axisChangePending = true)
    (ht : usub32 now s.axisChangeStartMs ≥ AXIS_CHANGE_BUFFER_MS) :
    loopStep s x y z now = goToMenu s ∧
    (loopStep s x y z now).currentState = State.STATE_MENU ∧
    (loopStep s x y z now).toneFreq = 0 ∧
    (loopStep s x y z now).ledOn = false ∧
    (loopStep s x y z now).countdownRemainingSec = s.countdownRemainingSec := by
  have h : loopStep s x y z now = goToMenu s := by
    simp only [loopStep, loopFace]
    rw [if_pos hst, if_neg hface]
    simp [hp, ht]
  refine ⟨h, ?_, ?_, ?_, ?_⟩ <;> rw [h] <;> simp [goToMenu]

/-- C3 witness: the amended statement instantiated on `interruptedSys` with
a flat (Face::None) sample at t = 600 ms. -/
theorem reorientation_debounced_returns_to_menu_witness :
    loopStep interruptedSys 0 0 10 600 = goToMenu interruptedSys ∧
    (loopStep interruptedSys 0 0 10 600).currentState = State.STATE_MENU ∧
    (loopStep interruptedSys 0 0 10 600).toneFreq = 0 ∧
    (loopStep interruptedSys 0 0 10 600).ledOn = false ∧
    (loopStep interruptedSys 0 0 10 600).countdownRemainingSec =
      interruptedSys.countdownRemainingSec :=
  reorientation_debounced_returns_to_menu interruptedSys 0 0 10 600
    (Or.inl rfl)
    (by simp [detectFace_sample_flat])
    rfl
    (by decide)

/-- C5: a single-tick orientation flicker during Countdown (any sample that
does not classify to the active face for one tick, followed by a sample
that does) never reaches Menu: the first tick only opens the debounce
window, and the second clears it again. -/
theorem flicker_does_not_cancel
    (s : Sys) (x1 y1 z1 x2 y2 z2 : ℚ) (now1 now2 : Nat)
    (hst : s.currentState = State.STATE_COUNTDOWN)
    (hp : s.axisChangePending = false)
    (hact : s.activeFace ≠ Face.FACE_NONE)
    (hflick : detectFace x1 y1 z1 ≠ s.activeFace)
    (hrevert : detectFace x2 y2 z2 = s.activeFace) :
    (loopStep s x1 y1 z1 now1).currentState ≠ State.STATE_MENU ∧
    (loopStep (loopStep s x1 y1 z1 now1) x2 y2 z2 now2).currentState ≠
      State.STATE_MENU ∧
    (loopStep (loopStep s x1 y1 z1 now1) x2 y2 z2 now2).axisChangePending = false := by
  have hf1 : loopStep s x1 y1 z1 now1 =
      stateDispatch { s with axisChangePending := true, axisChangeStartMs := now1 }
        (detectFace x1 y1 z1) now1 := by
    simp only [loopStep, loopFace]
    rw [if_pos (Or.inl hst), if_neg (fun hh => hflick hh.1)]
    simp [hp]
  obtain ⟨hm1, hpend1, hface1, hstate1⟩ :=
    stateDispatch_not_menu
      { s with axisChangePending := true, axisChangeStartMs := now1 }
      (detectFace x1 y1 z1) now1 (by simp [hst])
  have hf2 : loopStep (loopStep s x1 y1 z1 now1) x2 y2 z2 now2 =
      stateDispatch { loopStep s x1 y1 z1 now1 with axisChangePending := false }
        (detectFace x2 y2 z2) now2 := by
    rw [loopStep, loopFace, if_pos (by rw [hf1]; exact hstate1),
      if_pos ⟨by rw [hrevert, hf1, hface1], by rw [hrevert]; exact hact⟩]
  obtain ⟨hm2, hpend2, hface2, hstate2⟩ :=
    stateDispatch_not_menu
      { loopStep s x1 y1 z1 now1 with axisChangePending := false }
      (detectFace x2 y2 z2) now2 (by simp; rw [hf1]; exact hstate1)
  refine ⟨by rw [hf1]; exact hm1, by rw [hf2]; exact hm2, by rw [hf2]; rw [hpend2]⟩

/-- C5 witness: a Countdown state flickering to flat for one tick at
t = 1000 and back to −Y at t = 1050 stays out of Menu with the window
cleared. -/
theorem flicker_does_not_cancel_witness :
    (loopStep
      { currentState := State.STATE_COUNTDOWN, activeFace := Face.FACE_NEG_Y,
        countdownTotalSec := 5, countdownRemainingSec := 4, countdownAxisLabel := 'Y',
        lastCountdownTick := 950, countdownRotation := 0, lastAlarmToggleMs := 0,
        alarmOutputState := false, axisChangePending := false, axisChangeStartMs := 0,
        currentNoteIndex := 0, noteStartMs := 0, ledOn := false, toneFreq := 0 }
      0 0 10 1000).currentState ≠ State.STATE_MENU ∧
    (loopStep (loopStep
      { currentState := State.STATE_COUNTDOWN, activeFace := Face.FACE_NEG_Y,
        countdownTotalSec := 5, countdownRemainingSec := 4, countdownAxisLabel := 'Y',
        lastCountdownTick := 950, countdownRotation := 0, lastAlarmToggleMs := 0,
        alarmOutputState := false, axisChangePending := false, axisChangeStartMs := 0,
        currentNoteIndex := 0, noteStartMs := 0, ledOn := false, toneFreq := 0 }
      0 0 10 1000) 0 (-10) 0 1050).currentState ≠ State.STATE_MENU ∧
    (loopStep (loopStep
      { currentState := State.STATE_COUNTDOWN, activeFace := Face.FACE_NEG_Y,
        countdownTotalSec := 5, countdownRemainingSec := 4, countdownAxisLabel := 'Y',
        lastCountdownTick := 950, countdownRotation := 0, lastAlarmToggleMs := 0,
        alarmOutputState := false, axisChangePending := false, axisChangeStartMs := 0,
        currentNoteIndex := 0, noteStartMs := 0, ledOn := false, toneFreq := 0 }
      0 0 10 1000) 0 (-10) 0 1050).axisChangePending = false :=
  flicker_does_not_cancel _ 0 0 10 0 (-10) 0 1000 1050
    rfl rfl (by decide)
    (by simp [detectFace_sample_flat])
    (by simp [detectFace_sample_negY])

/-- An out-of-band dominant magnitude rules out the Y branch of
`detectFace`. -/
lemma not_y_branch (x y z : ℚ)
    (h : max (max (fabsf x) (fabsf y)) (fabsf z) < AXIS_G_MIN ∨
         AXIS_G_MAX < max (max (fabsf x) (fabsf y)) (fabsf z)) :
    ¬(fabsf y ≥ fabsf x ∧ fabsf y ≥ fabsf z ∧ fabsf y ≥ AXIS_G_MIN ∧
      fabsf y ≤ AXIS_G_MAX) := by
  rintro ⟨hyx, hyz, hmin, hmax⟩
  rw [max_eq_right hyx, max_eq_left hyz] at h
  rcases h with h | h <;> linarith

/-- An out-of-band dominant magnitude rules out the X branch of
`detectFace`. -/
lemma not_x_branch (x y z : ℚ)
    (h : max (max (fabsf x) (fabsf y)) (fabsf z) < AXIS_G_MIN ∨
         AXIS_G_MAX < max (max (fabsf x) (fabsf y)) (fabsf z)) :
    ¬(fabsf x ≥ fabsf y ∧ fabsf x ≥ fabsf z ∧ fabsf x ≥ AXIS_G_MIN ∧
      fabsf x ≤ AXIS_G_MAX) := by
  rintro ⟨hxy, hxz, hmin, hmax⟩
  rw [max_eq_left hxy, max_eq_left hxz] at h
  rcases h with h | h <;> linarith

/-- C6: whenever the dominant-axis magnitude (the largest of the three
absolute accelerations) lies outside the gravity band [9.0, 11.5],
`detectFace` returns `Face::None`. -/
theorem detectFace_out_of_band_none (x y z : ℚ)
    (h : max (max (fabsf x) (fabsf y)) (fabsf z) < AXIS_G_MIN ∨
         AXIS_G_MAX < max (max (fabsf x) (fabsf y)) (fabsf z)) :
    detectFace x y z = Face.FACE_NONE := by
  simp only [detectFace]
  rw [if_neg (not_y_branch x y z h), if_neg (not_x_branch x y z h)]
  split_ifs <;> rfl

/-- The concrete sample (0, 0, 20) is dominated by a 20 m/s² Z reading,
above the band. -/
lemma out_of_band_sample :
    AXIS_G_MAX < max (max (fabsf 0) (fabsf 0)) (fabsf 20) :=
  lt_of_lt_of_le (by norm_num [fabsf, AXIS_G_MAX]) (le_max_right _ _)

/-- C6 witness: the over-band sample (0, 0, 20) classifies to None. -/
theorem detectFace_out_of_band_none_witness :
    detectFace 0 0 20 = Face.FACE_NONE :=
  detectFace_out_of_band_none 0 0 20 (Or.inr out_of_band_sample)

/-- Modelled from the spec (§4.1), for the refinement claim C7: pick the
dominant axis as the largest absolute value with ties resolved by the
priority Y > X > Z; report a face only if the dominant magnitude is inside
the gravity band, with the sign of the dominant axis selecting the positive
or negative face; a dominant Z axis is the neutral orientation and yields
`Face::None`. -/
def classifySpec (x y z : ℚ) : Face :=
  let ax := fabsf x
  let ay := fabsf y
  let az := fabsf z
  if ay ≥ ax ∧ ay ≥ az then
    if AXIS_G_MIN ≤ ay ∧ ay ≤ AXIS_G_MAX then
      if y > 0 then Face.FACE_POS_Y else Face.FACE_NEG_Y
    else Face.FACE_NONE
  else if ax ≥ az then
    if AXIS_G_MIN ≤ ax ∧ ax ≤ AXIS_G_MAX then
      if x > 0 then Face.FACE_POS_X else Face.FACE_NEG_X
    else Face.FACE_NONE
  else Face.FACE_NONE

/-- C7: `detectFace` is a total pure function that agrees everywhere with
the specification's classifier: dominant-axis ties go to Y over X over Z
(first satisfying condition wins), the sign of the dominant axis selects
the positive or negative face, and a dominant in-band Z axis yields
`Face::None`. -/
theorem detectFace_eq_classifySpec (x y z : ℚ) :
    detectFace x y z = classifySpec x y z := by
  simp only [detectFace, classifySpec]
  split_ifs <;>
    first
      | rfl
      | (exfalso;
         simp only [ge_iff_le, not_and_or, not_le] at *;
         casesm* _ ∨ _, _ ∧ _ <;> linarith)

/-- C8: while Alarm is active, one `updateAlarm` step drives the blink
sub-clock purely from its own two fields with the fixed 1000 ms period
(`ALARM_TOGGLE_MS`) — the formulas mention no melody state — and advances
the melody index cyclically: when the current note's duration has elapsed
the index becomes (index + 1) mod 13, so the 13 notes play in order and
wrap back to note 0 indefinitely; the state stays Alarm (the sequencer
never self-terminates). -/
theorem alarm_subclocks_independent
    (s : Sys) (now : Nat)
    (hs : s.currentState = State.STATE_ALARM)
    (h0 : 0 ≤ s.currentNoteIndex)
    (h13 : s.currentNoteIndex < NUM_NOTES) :
    (updateAlarm s now).alarmOutputState =
      (if usub32 now s.lastAlarmToggleMs ≥ ALARM_TOGGLE_MS then !s.alarmOutputState
       else s.alarmOutputState) ∧
    (updateAlarm s now).ledOn =
      (if usub32 now s.lastAlarmToggleMs ≥ ALARM_TOGGLE_MS then !s.alarmOutputState
       else s.ledOn) ∧
    (updateAlarm s now).lastAlarmToggleMs =
      (if usub32 now s.lastAlarmToggleMs ≥ ALARM_TOGGLE_MS then now
       else s.lastAlarmToggleMs) ∧
    (updateAlarm s now).currentNoteIndex =
      (if usub32 now s.noteStartMs ≥ (noteDurations.getD s.currentNoteIndex.toNat 0).toNat
       then (s.currentNoteIndex + 1) % NUM_NOTES
       else s.currentNoteIndex) ∧
    (updateAlarm s now).currentState = State.STATE_ALARM := by
  have hn : NUM_NOTES = 13 := rfl
  rw [hn] at h13 ⊢
  simp only [updateAlarm, hs]
  split_ifs <;> simp_all <;> omega

/-- A mid-alarm state on the final (13th) melody note, both sub-clocks
anchored at t = 6000 ms. -/
def alarmSysA : Sys :=
  { currentState := State.STATE_ALARM, activeFace := Face.FACE_NEG_Y,
    countdownTotalSec := 5, countdownRemainingSec := 0, countdownAxisLabel := 'Y',
    lastCountdownTick := 6000, countdownRotation := 0, lastAlarmToggleMs := 6000,
    alarmOutputState := false, axisChangePending := false, axisChangeStartMs := 0,
    currentNoteIndex := 12, noteStartMs := 6000, ledOn := false, toneFreq := 440 }

/-- C8 witness: at t = 7000 ms the blink toggles (1000 ms elapsed) and the
melody wraps from note 12 back to note 0. -/
theorem alarm_subclocks_independent_witness :
    (updateAlarm alarmSysA 7000).alarmOutputState =
      (if usub32 7000 alarmSysA.lastAlarmToggleMs ≥ ALARM_TOGGLE_MS then
        !alarmSysA.alarmOutputState
       else alarmSysA.alarmOutputState) ∧
    (updateAlarm alarmSysA 7000).ledOn =
      (if usub32 7000 alarmSysA.lastAlarmToggleMs ≥ ALARM_TOGGLE_MS then
        !alarmSysA.alarmOutputState
       else alarmSysA.ledOn) ∧
    (updateAlarm alarmSysA 7000).lastAlarmToggleMs =
      (if usub32 7000 alarmSysA.lastAlarmToggleMs ≥ ALARM_TOGGLE_MS then 7000
       else alarmSysA.lastAlarmToggleMs) ∧
    (updateAlarm alarmSysA 7000).currentNoteIndex =
      (if usub32 7000 alarmSysA.noteStartMs ≥
          (noteDurations.getD alarmSysA.currentNoteIndex.toNat 0).toNat
       then (alarmSysA.currentNoteIndex + 1) % NUM_NOTES
       else alarmSysA.currentNoteIndex) ∧
    (updateAlarm alarmSysA 7000).currentState = State.STATE_ALARM :=
  alarm_subclocks_independent alarmSysA 7000 rfl (by decide) (by decide)

/-- C9: the firmware's unsigned 32-bit difference `now - anchor` (the
`usub32` every elapsed-time check in this embedding uses: countdown tick,
blink toggle, melody advance, debounce confirmation) computes the true
elapsed time even across a wraparound of the millisecond clock, as long as
the true elapsed time is under 2^32 ms (~49 days); consequently the
countdown decrement condition behaves exactly as with an unwrapped clock. -/
theorem usub32_wraparound_exact (t0 t1 : Nat)
    (h01 : t0 ≤ t1) (hw : t1 - t0 < UL_MOD) :
    usub32 (t1 % UL_MOD) (t0 % UL_MOD) = t1 - t0 ∧
    (∀ s : Sys, s.currentState = State.STATE_COUNTDOWN →
      s.lastCountdownTick = t0 % UL_MOD →
      0 < s.countdownRemainingSec →
      (updateCountdown s (t1 % UL_MOD)).countdownRemainingSec =
        (if 1000 ≤ t1 - t0 then s.countdownRemainingSec - 1
         else s.countdownRemainingSec)) := by
  have hM : UL_MOD = 4294967296 := by norm_num [UL_MOD]
  rw [hM] at hw
  have key : usub32 (t1 % UL_MOD) (t0 % UL_MOD) = t1 - t0 := by
    simp only [usub32, hM]
    omega
  refine ⟨key, fun s hs hlt hrem => ?_⟩
  by_cases hcond : 1000 ≤ t1 - t0
  · rw [updateCountdown_decrement s _ hs (by rw [hlt, key]; exact hcond) hrem]
    simp [hcond]
  · rw [updateCountdown_noTick s _ (by rw [hlt, key]; omega)]
    simp [hcond]

/-- A Countdown state whose one-second anchor sits 300 ms before the 32-bit
millisecond clock wraps. -/
def wrapSys : Sys :=
  { currentState := State.STATE_COUNTDOWN, activeFace := Face.FACE_NEG_Y,
    countdownTotalSec := 5, countdownRemainingSec := 3, countdownAxisLabel := 'Y',
    lastCountdownTick := 4294966996, countdownRotation := 0, lastAlarmToggleMs := 0,
    alarmOutputState := false, axisChangePending := false, axisChangeStartMs := 0,
    currentNoteIndex := 0, noteStartMs := 0, ledOn := false, toneFreq := 0 }

/-- C9 witness: a tick 1200 ms later — 900 ms after the clock wrapped — is
seen as exactly 1200 elapsed ms and decrements the countdown. -/
theorem usub32_wraparound_exact_witness :
    usub32 (4294968196 % UL_MOD) (4294966996 % UL_MOD) = 4294968196 - 4294966996 ∧
    (updateCountdown wrapSys (4294968196 % UL_MOD)).countdownRemainingSec =
      (if 1000 ≤ 4294968196 - 4294966996 then wrapSys.countdownRemainingSec - 1
       else wrapSys.countdownRemainingSec) :=
  ⟨(usub32_wraparound_exact 4294966996 4294968196 (by decide) (by decide)).1,
    (usub32_wraparound_exact 4294966996 4294968196 (by decide) (by decide)).2
      wrapSys rfl (by decide) (by decide)⟩

/-- C10: `melody` and `noteDurations` each hold exactly `NUM_NOTES` = 13
entries, `startAlarm` resets the note index to 0 < 13, and `updateAlarm`
keeps it in [0, 13): every indexed read of `melody[currentNoteIndex]` and
`noteDurations[currentNoteIndex]` is in bounds. -/
theorem melody_index_in_bounds :
    melody.length = 13 ∧ noteDurations.length = 13 ∧ NUM_NOTES = 13 ∧
    (∀ s : Sys, ∀ now : Nat,
      0 ≤ (startAlarm s now).currentNoteIndex ∧
      (startAlarm s now).currentNoteIndex < NUM_NOTES) ∧
    (∀ s : Sys, ∀ now : Nat,
      0 ≤ s.currentNoteIndex → s.currentNoteIndex < NUM_NOTES →
      0 ≤ (updateAlarm s now).currentNoteIndex ∧
      (updateAlarm s now).currentNoteIndex < NUM_NOTES) := by
  have hn : NUM_NOTES = 13 := rfl
  refine ⟨rfl, rfl, rfl, fun s now => ?_, fun s now h0 h13 => ?_⟩
  · rw [startAlarm_eq, hn]
    exact ⟨le_refl 0, by norm_num⟩
  · rw [hn] at h13 ⊢
    simp only [updateAlarm]
    split_ifs <;> simp_all <;> omega

/-- A mid-alarm state on melody note 5. -/
def alarmSysB : Sys :=
  { currentState := State.STATE_ALARM, activeFace := Face.FACE_POS_Y,
    countdownTotalSec := 15, countdownRemainingSec := 0, countdownAxisLabel := 'Y',
    lastCountdownTick := 20000, countdownRotation := 2, lastAlarmToggleMs := 20000,
    alarmOutputState := true, axisChangePending := false, axisChangeStartMs := 0,
    currentNoteIndex := 5, noteStartMs := 20000, ledOn := true, toneFreq := 494 }

/-- C10 witness: stepping the alarm from note 5 keeps the index inside
[0, 13). -/
theorem melody_index_in_bounds_witness :
    0 ≤ (updateAlarm alarmSysB 20200).currentNoteIndex ∧
    (updateAlarm alarmSysB 20200).currentNoteIndex < NUM_NOTES :=
  melody_index_in_bounds.2.2.2.2 alarmSysB 20200 (by decide) (by decide)

end TiltTimer
